import Mathlib

/-!
Verification of the request-routing and method-dispatch layer of the
square-mcp-server repository (src/http-server.ts).  The JavaScript runtime
values that flow through the Express handler are modelled by the inductive
type `JsValue`; the `/mcp` POST handler, its JSON-RPC envelope validation,
the `tools/call` dispatch (`make_api_request`, `get_type_info`,
`get_service_info`), the write-policy gate and the error-to-protocol
mapping are translated function by function from the source.
-/

/-- Model of a JavaScript runtime value as it flows through the handler:
`undefined`, `null`, booleans, numbers (the requests under study only carry
integral ids and codes, so `Int` suffices), strings, arrays and plain
objects (association lists of own properties). -/
inductive JsValue where
  | undefined : JsValue
  | jsNull : JsValue
  | bool : Bool → JsValue
  | num : Int → JsValue
  | str : String → JsValue
  | arr : List JsValue → JsValue
  | obj : List (String × JsValue) → JsValue

/-- Property read `v[k]` / destructuring pattern member: on an object it is
the own-property lookup (absent property gives `undefined`); on every other
non-nullish value (primitives, arrays — none of which own the property
names used by the server) it gives `undefined`.  Reading a property of
`undefined` or `null` throws in JavaScript; the call sites model that throw
separately. -/
def jsGet : JsValue → String → JsValue
  | .obj fs, k =>
    match fs.lookup k with
    | some v => v
    | none => .undefined
  | _, _ => .undefined

/-- JavaScript truthiness test (for `request || {}`). -/
def jsFalsy : JsValue → Bool
  | .undefined => true
  | .jsNull => true
  | .bool b => !b
  | .num n => n == 0
  | .str s => s == ""
  | _ => false

mutual

/-- JavaScript string coercion, as used by template literals and by
property-key coercion `methods[method]`. -/
def jsDisplay : JsValue → String
  | .undefined => "undefined"
  | .jsNull => "null"
  | .bool true => "true"
  | .bool false => "false"
  | .num n => toString n
  | .str s => s
  | .arr xs => jsDisplayList xs
  | .obj _ => "[object Object]"

/-- Array-to-string coercion: elements joined by commas. -/
def jsDisplayList : List JsValue → String
  | [] => ""
  | [x] => jsDisplay x
  | x :: y :: xs => jsDisplay x ++ "," ++ jsDisplayList (y :: xs)

end

/-- Substring containment, used to state the "message contains ..."
clauses of the spec. -/
def containsStr (s pat : String) : Prop := ∃ a b, s = a ++ pat ++ b

/-- Metadata record for one API method, with the fields http-server.ts
reads from the per-service `ApiMethodInfo` values: the human description,
the write flag gated by `DISALLOW_WRITES`, and the request-type name used
by `get_type_info`. -/
structure ApiMethodInfo where
  description : String
  isWrite : Bool
  requestType : String
  deriving DecidableEq

/-- A downstream handler `(accessToken, args) => Promise<unknown>`:
it receives the credential and the request object and either resolves to
the response text or rejects with an error message. -/
abbrev Handler : Type := String → JsValue → Except String String

/-- One service's method table (`Object.entries` order preserved). -/
abbrev MethodTable : Type := List (String × ApiMethodInfo)

/-- One service's handler table. -/
abbrev HandlerTable : Type := List (String × Handler)

/-- The `serviceMethodsMap` shape: service name → method table. -/
abbrev ServiceMethods : Type := List (String × MethodTable)

/-- The `serviceHandlersMap` shape: service name → handler table. -/
abbrev ServiceHandlers : Type := List (String × HandlerTable)

/-- The external type-information table from utils/type-map.js.
Modelled from the spec: utils/type-map.js is not under src/; the spec
describes it as an external table indexed by `requestTypeRef`, so it is
modelled as a mapping from type name to the rendered type information
text that the server returns. -/
abbrev TypeMap : Type := List (String × String)

/-- The slice of the process environment the handler reads:
`ACCESS_TOKEN` and `DISALLOW_WRITES`. -/
structure ProcessEnv where
  accessToken : Option String
  disallowWrites : Option String

/-- `getAccessToken`: the token from the environment, or the empty string
(`accessToken || ''`). -/
def getAccessToken (env : ProcessEnv) : String := env.accessToken.getD ""

/-- JavaScript `toLowerCase()` on the ASCII service names. -/
def jsToLower (s : String) : String := String.mk (s.data.map Char.toLower)

/-- The canonicalization `service.charAt(0).toUpperCase() + service.slice(1)`:
upper-case the first character only, rest unchanged. -/
def capitalizeFirst (s : String) : String :=
  match s.data with
  | [] => ""
  | c :: cs => String.mk (c.toUpper :: cs)

/-- `JSON.stringify(names, null, 2)` for an array of strings, as used for
the "Available services/methods" lists in error messages. -/
def stringifyNames : List String → String
  | [] => "[]"
  | xs => "[\n" ++ String.intercalate ",\n" (xs.map (fun s => "  \"" ++ s ++ "\"")) ++ "\n]"

/-- `JSON.stringify(m, null, 2)` for the `get_service_info` projection, an
object whose values are single-field `\x7b description \x7d` records. -/
def stringifyDescMap : List (String × String) → String
  | [] => "\x7b\x7d"
  | xs => "\x7b\n"
      ++ String.intercalate ",\n"
          (xs.map (fun p =>
            "  \"" ++ p.1 ++ "\": \x7b\n    \"description\": \"" ++ p.2 ++ "\"\n  \x7d"))
      ++ "\n\x7d"

/-- The distinct failure exits of the `tools/call` inner `try` block, each
carrying the exact message string the source throws at that site. -/
inductive DispatchError where
  | unknownService : String → DispatchError
  | unknownMethod : String → DispatchError
  | writeDisallowed : String → DispatchError
  | noHandler : String → DispatchError
  | handlerFailure : String → DispatchError
  | typeInfoMissing : String → DispatchError
  | unknownTool : String → DispatchError
  | typeError : String → DispatchError
  deriving DecidableEq

/-- The message the inner `catch` reads from the thrown error. -/
def DispatchError.message : DispatchError → String
  | .unknownService m => m
  | .unknownMethod m => m
  | .writeDisallowed m => m
  | .noHandler m => m
  | .handlerFailure m => m
  | .typeInfoMissing m => m
  | .unknownTool m => m
  | .typeError m => m

/-- The `result` value built for a successful tool call:
`\x7b content: [\x7b type: 'text', text \x7d] \x7d`. -/
def toolResult (text : String) : JsValue :=
  .obj [("content", .arr [.obj [("type", .str "text"), ("text", .str text)]])]

/-- A handler invocation observed during dispatch: the credential and the
request object the handler received. -/
def Invocation : Type := String × JsValue

/-- Message of the TypeError thrown by destructuring a nullish value. -/
def destructureMsg : String := "Cannot destructure a nullish value"

/-- Message of the TypeError thrown by reading a property or calling a
method of `undefined`. -/
def undefinedAccessMsg : String := "Cannot read properties of undefined"

/-- Nullish test: destructuring such a value throws a TypeError. -/
def jsNullish : JsValue → Bool
  | .undefined => true
  | .jsNull => true
  | _ => false

/-- JavaScript strict equality of a value against a string literal, as in
`jsonrpc !== '2.0'` and `switch` cases over strings: true exactly when the
value is that string. -/
def jsStrictEqStr : JsValue → String → Bool
  | .str s, t => s == t
  | _, _ => false

/-- The `make_api_request` branch of the `tools/call` switch
(http-server.ts lines 253-283): destructure the arguments, canonicalize
the service name, resolve the method table and the handler table, apply
the `DISALLOW_WRITES` gate, and invoke the handler with the process-wide
credential.  The second component records every handler invocation with
the credential and request the handler received. -/
def makeApiRequest (mm : ServiceMethods) (hm : ServiceHandlers) (env : ProcessEnv)
    (args : JsValue) : Except DispatchError JsValue × List Invocation :=
  if jsNullish args then (.error (.typeError destructureMsg), [])
  else
    let service := jsGet args "service"
    let methodV := jsGet args "method"
    let request := jsGet args "request"
    match service with
    | .str s =>
      let serviceName := capitalizeFirst s
      match mm.lookup serviceName with
      | none =>
        (.error (.unknownService ("Invalid service: " ++ s ++ ". Available services: "
          ++ stringifyNames (mm.map Prod.fst))), [])
      | some methods =>
        let handlers? := hm.lookup serviceName
        let m := jsDisplay methodV
        match methods.lookup m with
        | none =>
          (.error (.unknownMethod ("Invalid method " ++ m ++ " for service " ++ s
            ++ ". Available methods: " ++ stringifyNames (methods.map Prod.fst))), [])
        | some methodInfo =>
          if (env.disallowWrites == some "true") && methodInfo.isWrite then
            (.error (.writeDisallowed ("Write operations are not allowed in this environment. Attempted operation: "
              ++ s ++ "." ++ m)), [])
          else
            match handlers? with
            | none => (.error (.typeError undefinedAccessMsg), [])
            | some handlers =>
              match handlers.lookup m with
              | none => (.error (.noHandler ("No handler found for " ++ s ++ "." ++ m)), [])
              | some handler =>
                let token := getAccessToken env
                let req := if jsFalsy request then JsValue.obj [] else request
                match handler token req with
                | .ok text => (.ok (toolResult text), [(token, req)])
                | .error msg => (.error (.handlerFailure msg), [(token, req)])
    | _ => (.error (.typeError undefinedAccessMsg), [])

/-- The `get_type_info` branch (lines 285-309): same two-level resolution,
then the method's `requestType` is resolved against the external
type-information table; a miss there is the distinct
"Type information not found" failure. -/
def getTypeInfo (mm : ServiceMethods) (tm : TypeMap) (args : JsValue) :
    Except DispatchError JsValue :=
  if jsNullish args then .error (.typeError destructureMsg)
  else
    match jsGet args "service" with
    | .str s =>
      match mm.lookup (capitalizeFirst s) with
      | none =>
        .error (.unknownService ("Invalid service: " ++ s ++ ". Available services: "
          ++ stringifyNames (mm.map Prod.fst)))
      | some methods =>
        let m := jsDisplay (jsGet args "method")
        match methods.lookup m with
        | none =>
          .error (.unknownMethod ("Invalid method " ++ m ++ " for service " ++ s
            ++ ". Available methods: " ++ stringifyNames (methods.map Prod.fst)))
        | some methodInfo2 =>
          match tm.lookup methodInfo2.requestType with
          | none => .error (.typeInfoMissing ("Type information not found for " ++ methodInfo2.requestType))
          | some typeInfo => .ok (toolResult typeInfo)
    | _ => .error (.typeError undefinedAccessMsg)

/-- The projection `Object.entries(infoMethods).reduce(...)` of the
`get_service_info` branch: every method name mapped to a record holding
only its description. -/
def serviceInfoProjection (methods : MethodTable) : List (String × String) :=
  methods.map (fun p => (p.1, p.2.description))

/-- The `get_service_info` branch (lines 311-328): resolve the service
only, then return the description projection of its method table. -/
def getServiceInfo (mm : ServiceMethods) (args : JsValue) :
    Except DispatchError JsValue :=
  if jsNullish args then .error (.typeError destructureMsg)
  else
    match jsGet args "service" with
    | .str s =>
      match mm.lookup (capitalizeFirst s) with
      | none =>
        .error (.unknownService ("Invalid service: " ++ s ++ ". Available services: "
          ++ stringifyNames (mm.map Prod.fst)))
      | some methods => .ok (toolResult (stringifyDescMap (serviceInfoProjection methods)))
    | _ => .error (.typeError undefinedAccessMsg)

/-- The inner switch of `tools/call` on the tool name (strict string
comparison, unknown names throw `Unknown tool: ...`). -/
def toolsCall (mm : ServiceMethods) (hm : ServiceHandlers) (tm : TypeMap)
    (env : ProcessEnv) (name args : JsValue) :
    Except DispatchError JsValue × List Invocation :=
  if jsStrictEqStr name "make_api_request" then makeApiRequest mm hm env args
  else if jsStrictEqStr name "get_type_info" then (getTypeInfo mm tm args, [])
  else if jsStrictEqStr name "get_service_info" then (getServiceInfo mm args, [])
  else (.error (.unknownTool ("Unknown tool: " ++ jsDisplay name)), [])

/-- JSON-RPC success envelope. -/
def rpcResult (result id : JsValue) : JsValue :=
  .obj [("jsonrpc", .str "2.0"), ("result", result), ("id", id)]

/-- JSON-RPC error envelope without a data field. -/
def rpcError (code : Int) (message : String) (id : JsValue) : JsValue :=
  .obj [("jsonrpc", .str "2.0"),
        ("error", .obj [("code", .num code), ("message", .str message)]),
        ("id", id)]

/-- JSON-RPC error envelope with the data field used by the outer catch. -/
def rpcErrorData (code : Int) (message data : String) (id : JsValue) : JsValue :=
  .obj [("jsonrpc", .str "2.0"),
        ("error", .obj [("code", .num code), ("message", .str message), ("data", .str data)]),
        ("id", id)]

/-- An HTTP response: status code and JSON body. -/
structure HttpResponse where
  status : Nat
  body : JsValue

/-- The static `initialize` result (lines 181-196). -/
def initializeResult : JsValue :=
  .obj [("protocolVersion", .str "2024-11-05"),
        ("capabilities", .obj [("tools", .obj [])]),
        ("serverInfo", .obj [("name", .str "square-mcp-server"), ("version", .str "1.0.0")])]

/-- The `tools/list` result (lines 198-243): three tool descriptors; the
first one's description embeds the lower-cased registry key list. -/
def toolsListResult (serviceNames : List String) : JsValue :=
  .obj [("tools", .arr [
    .obj [("name", .str "make_api_request"),
          ("description", .str ("Unified tool for all Square API operations. Available services: "
            ++ String.intercalate ", " (serviceNames.map jsToLower) ++ ".")),
          ("inputSchema", .obj [
            ("type", .str "object"),
            ("properties", .obj [
              ("service", .obj [("type", .str "string"),
                ("description", .str "The Square API service category (e.g., \"catalog\", \"payments\")")]),
              ("method", .obj [("type", .str "string"),
                ("description", .str "The API method to call (e.g., \"list\", \"create\")")]),
              ("request", .obj [("type", .str "object"),
                ("description", .str "The request object for the API call.")])]),
            ("required", .arr [.str "service", .str "method"])])],
    .obj [("name", .str "get_type_info"),
          ("description", .str "Get type information for a Square API method."),
          ("inputSchema", .obj [
            ("type", .str "object"),
            ("properties", .obj [
              ("service", .obj [("type", .str "string"),
                ("description", .str "The Square API service category")]),
              ("method", .obj [("type", .str "string"),
                ("description", .str "The API method to call")])]),
            ("required", .arr [.str "service", .str "method"])])],
    .obj [("name", .str "get_service_info"),
          ("description", .str "Get information about a Square API service."),
          ("inputSchema", .obj [
            ("type", .str "object"),
            ("properties", .obj [
              ("service", .obj [("type", .str "string"),
                ("description", .str "The Square API service category")])]),
            ("required", .arr [.str "service"])])]])]

/-- The `tools/call` case of the method switch (lines 245-249 and
334-349): the destructuring `const \x7b name, arguments: args \x7d = params`
sits BEFORE the inner `try`, so a nullish `params` throws out to the outer
catch (HTTP 500); every failure of the tool dispatch itself is caught and
converted to a -32000 error with HTTP 200. -/
def handleToolsCall (mm : ServiceMethods) (hm : ServiceHandlers) (tm : TypeMap)
    (env : ProcessEnv) (params id : JsValue) : HttpResponse × List Invocation :=
  if jsNullish params then
    (⟨500, rpcErrorData (-32603) "Internal error" destructureMsg id⟩, [])
  else
    let out := toolsCall mm hm tm env (jsGet params "name") (jsGet params "arguments")
    (match out.1 with
     | .ok r => ⟨200, rpcResult r id⟩
     | .error e => ⟨200, rpcError (-32000) e.message id⟩, out.2)

/-- The switch on the envelope's `method` field (lines 180-357). -/
def handleEnvelope (mm : ServiceMethods) (hm : ServiceHandlers) (tm : TypeMap)
    (env : ProcessEnv) (method params id : JsValue) : HttpResponse × List Invocation :=
  if jsStrictEqStr method "initialize" then
    (⟨200, rpcResult initializeResult id⟩, [])
  else if jsStrictEqStr method "tools/list" then
    (⟨200, rpcResult (toolsListResult (mm.map Prod.fst)) id⟩, [])
  else if jsStrictEqStr method "tools/call" then
    handleToolsCall mm hm tm env params id
  else
    (⟨400, rpcError (-32601) "Method not found" id⟩, [])

/-- The whole `app.post('/mcp')` handler (lines 168-365): destructure the
body (a nullish body throws to the outer catch), reject any envelope whose
`jsonrpc` field is not strictly the string "2.0" with HTTP 400 before any
method dispatch, then switch on the method field. -/
def handleMcp (mm : ServiceMethods) (hm : ServiceHandlers) (tm : TypeMap)
    (env : ProcessEnv) (body : JsValue) : HttpResponse × List Invocation :=
  if jsNullish body then
    (⟨500, rpcErrorData (-32603) "Internal error" destructureMsg .undefined⟩, [])
  else if jsStrictEqStr (jsGet body "jsonrpc") "2.0" then
    handleEnvelope mm hm tm env (jsGet body "method") (jsGet body "params") (jsGet body "id")
  else
    (⟨400, rpcError (-32600) "Invalid Request" (jsGet body "id")⟩, [])

/-- The key list of `serviceMethodsMap` (http-server.ts lines 71-110), in
source (insertion) order, which is what `Object.keys` returns. -/
def sourceServiceKeys : List String :=
  ["ApplePay", "BankAccounts", "BookingCustomAttributes", "Bookings", "Cards",
   "CashDrawers", "Catalog", "Checkout", "CustomerCustomAttributes",
   "CustomerGroups", "CustomerSegments", "Customers", "Devices", "Disputes",
   "Events", "GiftCardActivities", "GiftCards", "Inventory", "Invoices",
   "Labor", "LocationCustomAttributes", "Locations", "Loyalty",
   "MerchantCustomAttributes", "Merchants", "OAuth", "OrderCustomAttributes",
   "Orders", "Payments", "Payouts", "Refunds", "Sites", "Snippets",
   "Subscriptions", "Team", "Terminal", "Vendors", "WebhookSubscriptions"]

/-- Array indexing, for reading a response apart in refutations. -/
def jsIndex : JsValue → Nat → JsValue
  | .arr xs, i => xs.getD i .undefined
  | _, _ => .undefined

/-- The `arguments` object of a `make_api_request` call with the three
documented fields. -/
def marArgs (s m : String) (r : JsValue) : JsValue :=
  .obj [("service", .str s), ("method", .str m), ("request", r)]

/-- Modelled from the spec: the per-service tables (services/catalog.ts
and its siblings) are not under src/; the spec's scenarios name a
`Catalog` service with a read method `list` and a write method `create`
(isWrite=true), which this minimal table realizes. -/
def catalogMethods : MethodTable :=
  [("list", ⟨"List catalog objects", false, "ListCatalogRequest"⟩),
   ("create", ⟨"Create a catalog object", true, "UpsertCatalogObjectRequest"⟩)]

/-- Modelled from the spec: a downstream handler standing in for the
Catalog list call; resolves to a fixed response text. -/
def catalogListHandler : Handler := fun _ _ => .ok "catalog-list-response"

/-- Modelled from the spec: a downstream handler standing in for the
Catalog create call. -/
def catalogCreateHandler : Handler := fun _ _ => .ok "catalog-create-response"

/-- Modelled from the spec: handlers for the minimal Catalog table. -/
def catalogHandlers : HandlerTable :=
  [("list", catalogListHandler), ("create", catalogCreateHandler)]

/-- A registry holding only the modelled Catalog service. -/
def catalogMM : ServiceMethods := [("Catalog", catalogMethods)]

/-- The matching handler registry. -/
def catalogHM : ServiceHandlers := [("Catalog", catalogHandlers)]

/-- Modelled from the spec: a one-method ApplePay table; the service name
`ApplePay` itself is source truth (serviceMethodsMap key), and the
service-lookup path under study never reads the table's contents. -/
def applePayMM : ServiceMethods :=
  [("ApplePay", [("RegisterDomain", ⟨"Register a domain", true, "RegisterDomainRequest"⟩)])]

/-- The source registry's key set with empty tables: enough for the
unknown-service path, which reads only the keys. -/
def sourceKeysMM : ServiceMethods := sourceServiceKeys.map (fun k => (k, []))

/-- An environment with no token and writes allowed. -/
def env0 : ProcessEnv := ⟨none, none⟩

/-- An environment with a token and writes disabled. -/
def envWrites : ProcessEnv := ⟨some "tok123", some "true"⟩

/-- An environment with a token and writes allowed. -/
def envTok : ProcessEnv := ⟨some "tok123", none⟩

/-- The request of the spec's unknown-method scenario: a `tools/call` of
`make_api_request` for `catalog.bogus` with id 1. -/
def c5Body : JsValue :=
  .obj [("jsonrpc", .str "2.0"), ("method", .str "tools/call"),
        ("params", .obj [("name", .str "make_api_request"),
          ("arguments", .obj [("service", .str "catalog"), ("method", .str "bogus")])]),
        ("id", .num 1)]

/-- The arguments object inside `c5Body`. -/
def c5Args : JsValue :=
  .obj [("service", .str "catalog"), ("method", .str "bogus")]

/-- A `tools/list` request with id 1. -/
def listBody : JsValue :=
  .obj [("jsonrpc", .str "2.0"), ("method", .str "tools/list"), ("id", .num 1)]

/-- An `initialize` request with id 2. -/
def initBody : JsValue :=
  .obj [("jsonrpc", .str "2.0"), ("method", .str "initialize"), ("id", .num 2)]

/-- A registry with the single key `Catalog` and an empty table. -/
def keyOnlyCatalogMM : ServiceMethods := [("Catalog", [])]

/-- A registry with the single key `Orders` and an empty table. -/
def keyOnlyOrdersMM : ServiceMethods := [("Orders", [])]

/-- A `tools/call` whose params field is the number 5 (not an object). -/
def numParamsBody : JsValue :=
  .obj [("jsonrpc", .str "2.0"), ("method", .str "tools/call"),
        ("params", .num 5), ("id", .num 3)]

/-- A `tools/call` with no params field at all. -/
def noParamsBody : JsValue :=
  .obj [("jsonrpc", .str "2.0"), ("method", .str "tools/call"), ("id", .num 4)]

/-- A `tools/call` whose params object carries a tool name but no
arguments field. -/
def noArgsBody : JsValue :=
  .obj [("jsonrpc", .str "2.0"), ("method", .str "tools/call"),
        ("params", .obj [("name", .str "make_api_request")]), ("id", .num 5)]

/-- A complete `make_api_request` call of `catalog.list` with id 6 and no
request payload. -/
def catalogListBody : JsValue :=
  .obj [("jsonrpc", .str "2.0"), ("method", .str "tools/call"),
        ("params", .obj [("name", .str "make_api_request"),
          ("arguments", .obj [("service", .str "catalog"), ("method", .str "list")])]),
        ("id", .num 6)]

/-- Shape of `makeApiRequest` once both registry lookups succeed: only the
write gate, handler resolution and the handler call itself remain. -/
theorem makeApiRequest_resolved
    (mm : ServiceMethods) (hm : ServiceHandlers) (env : ProcessEnv)
    (s m : String) (r : JsValue) (tbl : MethodTable) (info : ApiMethodInfo)
    (hsvc : mm.lookup (capitalizeFirst s) = some tbl)
    (hmeth : tbl.lookup m = some info) :
    makeApiRequest mm hm env (marArgs s m r)
      = if (env.disallowWrites == some "true") && info.isWrite then
          (.error (.writeDisallowed ("Write operations are not allowed in this environment. Attempted operation: "
            ++ s ++ "." ++ m)), [])
        else
          match hm.lookup (capitalizeFirst s) with
          | none => (.error (.typeError undefinedAccessMsg), [])
          | some handlers =>
            match handlers.lookup m with
            | none => (.error (.noHandler ("No handler found for " ++ s ++ "." ++ m)), [])
            | some handler =>
              match handler (getAccessToken env) (if jsFalsy r then JsValue.obj [] else r) with
              | .ok text => (.ok (toolResult text), [(getAccessToken env, if jsFalsy r then JsValue.obj [] else r)])
              | .error msg => (.error (.handlerFailure msg), [(getAccessToken env, if jsFalsy r then JsValue.obj [] else r)]) := by
  have e1 : jsNullish (marArgs s m r) = false := rfl
  have e2 : jsGet (marArgs s m r) "service" = .str s := rfl
  have e3 : jsGet (marArgs s m r) "method" = .str m := rfl
  have e5 : jsGet (marArgs s m r) "request" = r := rfl
  have e4 : jsDisplay (JsValue.str m) = m := rfl
  simp only [makeApiRequest, e1, Bool.false_eq_true, if_false, e2, e3, e5, e4, hsvc, hmeth]
  rfl

/-- Every handler invocation recorded by `makeApiRequest` receives the
environment credential. -/
theorem makeApiRequest_invocations
    (mm : ServiceMethods) (hm : ServiceHandlers) (env : ProcessEnv) (args : JsValue) :
    ∀ inv ∈ (makeApiRequest mm hm env args).2, inv.1 = getAccessToken env := by
  intro inv hinv
  unfold makeApiRequest at hinv
  dsimp only at hinv
  repeat' split at hinv
  all_goals simp_all

/-- Every handler invocation recorded by `toolsCall` receives the
environment credential. -/
theorem toolsCall_invocations
    (mm : ServiceMethods) (hm : ServiceHandlers) (tm : TypeMap) (env : ProcessEnv)
    (name args : JsValue) :
    ∀ inv ∈ (toolsCall mm hm tm env name args).2, inv.1 = getAccessToken env := by
  intro inv hinv
  unfold toolsCall at hinv
  repeat' split at hinv
  · exact makeApiRequest_invocations mm hm env args inv hinv
  all_goals simp_all

/-- Every handler invocation of the whole request handler receives the
environment credential. -/
theorem handleMcp_invocations
    (mm : ServiceMethods) (hm : ServiceHandlers) (tm : TypeMap) (env : ProcessEnv)
    (body : JsValue) :
    ∀ inv ∈ (handleMcp mm hm tm env body).2, inv.1 = getAccessToken env := by
  intro inv hinv
  unfold handleMcp handleEnvelope handleToolsCall at hinv
  dsimp only at hinv
  repeat' split at hinv
  all_goals first
    | exact toolsCall_invocations mm hm tm env _ _ inv hinv
    | simp_all

/-- C1: every failure arising inside a `tools/call` request — unknown
service, unknown method, unknown tool name, write-policy block, missing
type info, handler or downstream failure — is answered with HTTP status
200 and a JSON-RPC error envelope of code -32000 carrying the failure's
message, never with HTTP 400 or 500. -/
theorem c1_tools_call_failures_are_http200_rpc32000
    (mm : ServiceMethods) (hm : ServiceHandlers) (tm : TypeMap) (env : ProcessEnv)
    (body : JsValue) (e : DispatchError) (invs : List Invocation)
    (hrpc : jsGet body "jsonrpc" = .str "2.0")
    (hmeth : jsGet body "method" = .str "tools/call")
    (hp : jsNullish (jsGet body "params") = false)
    (hcall : toolsCall mm hm tm env (jsGet (jsGet body "params") "name")
        (jsGet (jsGet body "params") "arguments") = (.error e, invs)) :
    handleMcp mm hm tm env body
      = (⟨200, rpcError (-32000) e.message (jsGet body "id")⟩, invs) := by
  have hb : jsNullish body = false := by
    cases body <;> first | rfl | simp [jsGet] at hrpc
  have hj : jsStrictEqStr (jsGet body "jsonrpc") "2.0" = true := by rw [hrpc]; rfl
  have hm1 : jsStrictEqStr (jsGet body "method") "initialize" = false := by rw [hmeth]; rfl
  have hm2 : jsStrictEqStr (jsGet body "method") "tools/list" = false := by rw [hmeth]; rfl
  have hm3 : jsStrictEqStr (jsGet body "method") "tools/call" = true := by rw [hmeth]; rfl
  simp only [handleMcp, hb, Bool.false_eq_true, if_false, hj, if_true]
  simp only [handleEnvelope, hm1, hm2, hm3, Bool.false_eq_true, if_false, if_true]
  simp only [handleToolsCall, hp, Bool.false_eq_true, if_false, hcall]

/-- C1 witness: a `tools/call` naming an unknown tool gets HTTP 200 and a
-32000 error. -/
theorem c1_witness :
    handleMcp [] [] [] env0 (.obj [("jsonrpc", .str "2.0"), ("method", .str "tools/call"),
        ("params", .obj [("name", .str "nope")]), ("id", .num 7)])
      = (⟨200, rpcError (-32000) "Unknown tool: nope" (.num 7)⟩, []) :=
  c1_tools_call_failures_are_http200_rpc32000 [] [] [] env0 _
    (.unknownTool "Unknown tool: nope") [] rfl rfl rfl rfl

/-- C2 counterexample: `ApplePay` is a registered service key, the
callers' lowercase convention writes it `applepay`, but canonicalizing
`applepay` gives `Applepay`, so dispatch fails with UnknownService — the
claim asserted this can never happen for a registered pair. -/
theorem c2_counterexample :
    (List.lookup "ApplePay" applePayMM).isSome = true ∧
    jsToLower "ApplePay" = "applepay" ∧
    capitalizeFirst "applepay" = "Applepay" ∧
    (makeApiRequest applePayMM [] env0 (marArgs "applepay" "RegisterDomain" .undefined)).1
      = .error (.unknownService ("Invalid service: applepay. Available services: "
          ++ stringifyNames ["ApplePay"])) :=
  ⟨rfl, rfl, rfl, rfl⟩

/-- C2 (amended): for every registered (service, method) pair, a
`make_api_request` dispatch that supplies a service name whose
canonicalization (first letter upper-cased, rest unchanged) equals the
registry key resolves both lookups — it never fails with UnknownService or
UnknownMethod, and when the write gate permits the call and a handler is
registered it either succeeds or fails with HandlerFailure. -/
theorem c2_canonical_service_resolves
    (mm : ServiceMethods) (hm : ServiceHandlers) (env : ProcessEnv)
    (s m : String) (r : JsValue) (tbl : MethodTable) (info : ApiMethodInfo)
    (hsvc : mm.lookup (capitalizeFirst s) = some tbl)
    (hmeth : tbl.lookup m = some info) :
    (∀ msg, (makeApiRequest mm hm env (marArgs s m r)).1 ≠ .error (.unknownService msg)
      ∧ (makeApiRequest mm hm env (marArgs s m r)).1 ≠ .error (.unknownMethod msg))
    ∧ (((env.disallowWrites == some "true") && info.isWrite) = false →
       ∀ (htbl : HandlerTable) (h : Handler),
         hm.lookup (capitalizeFirst s) = some htbl → htbl.lookup m = some h →
         (∃ t, (makeApiRequest mm hm env (marArgs s m r)).1 = .ok (toolResult t))
         ∨ (∃ msg, (makeApiRequest mm hm env (marArgs s m r)).1 = .error (.handlerFailure msg))) := by
  rw [makeApiRequest_resolved mm hm env s m r tbl info hsvc hmeth]
  constructor
  · intro msg
    split
    · simp
    · split
      · simp
      · split
        · simp
        · split <;> simp
  · intro hgate htbl h hh hl
    rw [if_neg (by simp [hgate]), hh]
    simp only [hl]
    cases hres : h (getAccessToken env) (if jsFalsy r then JsValue.obj [] else r) with
    | ok t => exact Or.inl ⟨t, by simp [hres]⟩
    | error msg => exact Or.inr ⟨msg, by simp [hres]⟩

/-- C2 witness: dispatching `catalog.list` with service name `catalog`
(canonicalized to the key `Catalog`) is neither UnknownService nor
UnknownMethod. -/
theorem c2_witness :
    (makeApiRequest catalogMM catalogHM env0 (marArgs "catalog" "list" .undefined)).1
      ≠ .error (.unknownService "boom")
    ∧ (makeApiRequest catalogMM catalogHM env0 (marArgs "catalog" "list" .undefined)).1
      ≠ .error (.unknownMethod "boom") :=
  (c2_canonical_service_resolves catalogMM catalogHM env0 "catalog" "list" .undefined
    catalogMethods ⟨"List catalog objects", false, "ListCatalogRequest"⟩ rfl rfl).1 "boom"

/-- C3 counterexample: the unknown-service candidate list of the source
registry keeps the registry's capitalized casing (`ApplePay`, ...) — it is
not lower-cased as the claim states. -/
theorem c3_counterexample :
    (makeApiRequest sourceKeysMM [] env0 (marArgs "zzz" "list" .undefined)).1
      = .error (.unknownService ("Invalid service: zzz. Available services: "
          ++ stringifyNames sourceServiceKeys))
    ∧ ("Invalid service: zzz. Available services: " ++ stringifyNames sourceServiceKeys)
      ≠ ("Invalid service: zzz. Available services: "
          ++ stringifyNames (sourceServiceKeys.map jsToLower)) :=
  ⟨rfl, by decide⟩

/-- C3 (amended): for every service name that does not resolve,
`make_api_request` fails with UnknownService and the message carries the
registry's full key list verbatim — in the registry's canonical
capitalized casing and registry order, not lower-cased. -/
theorem c3_unknown_service_lists_registry_keys
    (mm : ServiceMethods) (hm : ServiceHandlers) (env : ProcessEnv)
    (s m : String) (r : JsValue)
    (hmiss : mm.lookup (capitalizeFirst s) = none) :
    (makeApiRequest mm hm env (marArgs s m r)).1
      = .error (.unknownService ("Invalid service: " ++ s ++ ". Available services: "
          ++ stringifyNames (mm.map Prod.fst))) := by
  have e1 : jsNullish (marArgs s m r) = false := rfl
  have e2 : jsGet (marArgs s m r) "service" = .str s := rfl
  simp only [makeApiRequest, e1, Bool.false_eq_true, if_false, e2, hmiss]

/-- C3 witness: an unknown service name gets the registry's key list
verbatim. -/
theorem c3_witness :
    (makeApiRequest catalogMM catalogHM env0 (marArgs "square" "list" .undefined)).1
      = .error (.unknownService ("Invalid service: square. Available services: "
          ++ stringifyNames ["Catalog"])) :=
  c3_unknown_service_lists_registry_keys catalogMM catalogHM env0 "square" "list" .undefined rfl

/-- C4: when the writes-disabled flag is set and the resolved descriptor
has isWrite=true, dispatch fails with WriteDisallowed, the message
contains "Write operations are not allowed" and the attempted
service.method pair, and no handler invocation is recorded. -/
theorem c4_write_gate_blocks_without_invoking_handler
    (mm : ServiceMethods) (hm : ServiceHandlers) (env : ProcessEnv)
    (s m : String) (r : JsValue) (tbl : MethodTable) (info : ApiMethodInfo)
    (hsvc : mm.lookup (capitalizeFirst s) = some tbl)
    (hmeth : tbl.lookup m = some info)
    (hflag : env.disallowWrites = some "true")
    (hw : info.isWrite = true) :
    makeApiRequest mm hm env (marArgs s m r)
      = (.error (.writeDisallowed ("Write operations are not allowed in this environment. Attempted operation: "
          ++ s ++ "." ++ m)), [])
    ∧ containsStr ("Write operations are not allowed in this environment. Attempted operation: " ++ s ++ "." ++ m)
        "Write operations are not allowed"
    ∧ containsStr ("Write operations are not allowed in this environment. Attempted operation: " ++ s ++ "." ++ m)
        (s ++ "." ++ m) := by
  refine ⟨?_, ?_, ?_⟩
  · rw [makeApiRequest_resolved mm hm env s m r tbl info hsvc hmeth,
      if_pos (by simp [hflag, hw])]
  · refine ⟨"", " in this environment. Attempted operation: " ++ s ++ "." ++ m, ?_⟩
    rw [String.empty_append,
      show ("Write operations are not allowed in this environment. Attempted operation: " : String)
        = "Write operations are not allowed" ++ " in this environment. Attempted operation: " from rfl]
    simp only [String.append_assoc]
  · refine ⟨"Write operations are not allowed in this environment. Attempted operation: ", "", ?_⟩
    rw [String.append_empty]
    simp only [String.append_assoc]

/-- C4 witness: with writes disabled, `catalog.create` (isWrite=true) is
blocked with the exact message and zero handler invocations. -/
theorem c4_witness :
    makeApiRequest catalogMM catalogHM envWrites (marArgs "catalog" "create" .undefined)
      = (.error (.writeDisallowed "Write operations are not allowed in this environment. Attempted operation: catalog.create"), [])
    ∧ containsStr "Write operations are not allowed in this environment. Attempted operation: catalog.create"
        "Write operations are not allowed"
    ∧ containsStr "Write operations are not allowed in this environment. Attempted operation: catalog.create"
        "catalog.create" :=
  c4_write_gate_blocks_without_invoking_handler catalogMM catalogHM envWrites
    "catalog" "create" .undefined catalogMethods
    ⟨"Create a catalog object", true, "UpsertCatalogObjectRequest"⟩ rfl rfl rfl rfl

/-- C5: the spec's scenario — `make_api_request` for `catalog.bogus`
against a registry whose Catalog table has `list` but not `bogus` —
returns HTTP 200 with a -32000 error whose message contains
"Invalid method bogus for service catalog" and lists that service's
method names. -/
theorem c5_unknown_method_scenario
    (mm : ServiceMethods) (hm : ServiceHandlers) (tm : TypeMap)
    (env : ProcessEnv) (tbl : MethodTable)
    (hsvc : mm.lookup "Catalog" = some tbl)
    (hlist : (tbl.lookup "list").isSome = true)
    (hbogus : tbl.lookup "bogus" = none) :
    handleMcp mm hm tm env c5Body
      = (⟨200, rpcError (-32000) ("Invalid method bogus for service catalog. Available methods: "
          ++ stringifyNames (tbl.map Prod.fst)) (.num 1)⟩, [])
    ∧ containsStr ("Invalid method bogus for service catalog. Available methods: "
          ++ stringifyNames (tbl.map Prod.fst)) "Invalid method bogus for service catalog" := by
  constructor
  · have h1 : jsNullish c5Body = false := rfl
    have hj : jsStrictEqStr (jsGet c5Body "jsonrpc") "2.0" = true := rfl
    have hm1 : jsStrictEqStr (jsGet c5Body "method") "initialize" = false := rfl
    have hm2 : jsStrictEqStr (jsGet c5Body "method") "tools/list" = false := rfl
    have hm3 : jsStrictEqStr (jsGet c5Body "method") "tools/call" = true := rfl
    have hp : jsNullish (jsGet c5Body "params") = false := rfl
    have hname : jsStrictEqStr (jsGet (jsGet c5Body "params") "name") "make_api_request" = true := rfl
    have hargs : jsGet (jsGet c5Body "params") "arguments" = c5Args := rfl
    have e1 : jsNullish c5Args = false := rfl
    have e2 : jsGet c5Args "service" = .str "catalog" := rfl
    have e3 : jsGet c5Args "method" = .str "bogus" := rfl
    have ecap : capitalizeFirst "catalog" = "Catalog" := rfl
    have edisp : jsDisplay (JsValue.str "bogus") = "bogus" := rfl
    simp only [handleMcp, h1, hj, hm1, hm2, hm3, Bool.false_eq_true, if_false, if_true,
      handleEnvelope, handleToolsCall, hp, toolsCall, hname, hargs,
      makeApiRequest, e1, e2, e3, ecap, edisp, hsvc, hbogus]
    rfl
  · refine ⟨"", ". Available methods: " ++ stringifyNames (tbl.map Prod.fst), ?_⟩
    rw [String.empty_append,
      show ("Invalid method bogus for service catalog. Available methods: " : String)
        = "Invalid method bogus for service catalog" ++ ". Available methods: " from rfl]
    simp only [String.append_assoc]

/-- C5 witness: the scenario run against the modelled Catalog table. -/
theorem c5_witness :
    handleMcp catalogMM catalogHM [] env0 c5Body
      = (⟨200, rpcError (-32000) ("Invalid method bogus for service catalog. Available methods: "
          ++ stringifyNames ["list", "create"]) (.num 1)⟩, [])
    ∧ containsStr ("Invalid method bogus for service catalog. Available methods: "
          ++ stringifyNames ["list", "create"]) "Invalid method bogus for service catalog" :=
  c5_unknown_method_scenario catalogMM catalogHM [] env0 catalogMethods rfl rfl rfl

/-- C6: any envelope whose jsonrpc field is not the string "2.0" is
answered with HTTP 400, code -32600 and message "Invalid Request",
whatever its method field says — the check precedes all dispatch. -/
theorem c6_invalid_jsonrpc_http400
    (mm : ServiceMethods) (hm : ServiceHandlers) (tm : TypeMap) (env : ProcessEnv)
    (body : JsValue)
    (hb : jsNullish body = false)
    (h : jsGet body "jsonrpc" ≠ .str "2.0") :
    handleMcp mm hm tm env body
      = (⟨400, rpcError (-32600) "Invalid Request" (jsGet body "id")⟩, []) := by
  have h2 : jsStrictEqStr (jsGet body "jsonrpc") "2.0" = false := by
    cases hv : jsGet body "jsonrpc" <;> simp [jsStrictEqStr]
    intro heq
    exact h (by rw [hv, heq])
  simp only [handleMcp, hb, h2, Bool.false_eq_true, if_false]

/-- C6 witness: a jsonrpc 1.0 envelope with a valid method still gets 400
and -32600. -/
theorem c6_witness :
    handleMcp [] [] [] env0 (.obj [("jsonrpc", .str "1.0"), ("method", .str "tools/call"), ("id", .num 1)])
      = (⟨400, rpcError (-32600) "Invalid Request" (.num 1)⟩, []) :=
  c6_invalid_jsonrpc_http400 [] [] [] env0 _ rfl
    (fun hcon => absurd (JsValue.str.inj hcon) (by decide))

/-- C7 counterexample: the `tools/list` response is not independent of the
Registry — two registries with different key sets produce different
response bodies, because the make_api_request description embeds the
lower-cased key list. -/
theorem c7_counterexample :
    handleMcp keyOnlyCatalogMM [] [] env0 listBody
      ≠ handleMcp keyOnlyOrdersMM [] [] env0 listBody := by
  intro h
  have h2 := congrArg
    (fun p : HttpResponse × List Invocation =>
      jsDisplay (jsGet (jsIndex (jsGet (jsGet p.1.body "result") "tools") 0) "description")) h
  exact absurd h2 (by decide)

/-- C7 (amended): `initialize` and `tools/list` always answer HTTP 200
with a fixed-schema result that is independent of the request's params
and of the credential; `initialize` is also independent of the Registry,
while the `tools/list` result depends on the Registry only through the
lower-cased key list embedded in the make_api_request description. -/
theorem c7_static_operations
    (mm : ServiceMethods) (hm : ServiceHandlers) (tm : TypeMap) (env : ProcessEnv)
    (body : JsValue)
    (hb : jsNullish body = false)
    (hrpc : jsGet body "jsonrpc" = .str "2.0") :
    (jsGet body "method" = .str "initialize" →
      handleMcp mm hm tm env body
        = (⟨200, rpcResult initializeResult (jsGet body "id")⟩, []))
    ∧ (jsGet body "method" = .str "tools/list" →
      handleMcp mm hm tm env body
        = (⟨200, rpcResult (toolsListResult (mm.map Prod.fst)) (jsGet body "id")⟩, [])) := by
  have hj : jsStrictEqStr (jsGet body "jsonrpc") "2.0" = true := by rw [hrpc]; rfl
  constructor
  · intro hmeth
    have hm1 : jsStrictEqStr (jsGet body "method") "initialize" = true := by rw [hmeth]; rfl
    simp only [handleMcp, hb, hj, Bool.false_eq_true, if_false, if_true, handleEnvelope, hm1]
  · intro hmeth
    have hm1 : jsStrictEqStr (jsGet body "method") "initialize" = false := by rw [hmeth]; rfl
    have hm2 : jsStrictEqStr (jsGet body "method") "tools/list" = true := by rw [hmeth]; rfl
    simp only [handleMcp, hb, hj, Bool.false_eq_true, if_false, if_true, handleEnvelope, hm1, hm2]

/-- C7 witness: concrete `initialize` and `tools/list` responses at a
one-service registry, with an arbitrary env and no credential use. -/
theorem c7_witness :
    handleMcp keyOnlyCatalogMM [] [] env0 initBody
      = (⟨200, rpcResult initializeResult (.num 2)⟩, [])
    ∧ handleMcp keyOnlyCatalogMM [] [] env0 listBody
      = (⟨200, rpcResult (toolsListResult ["Catalog"]) (.num 1)⟩, []) :=
  ⟨(c7_static_operations keyOnlyCatalogMM [] [] env0 initBody rfl rfl).1 rfl,
   (c7_static_operations keyOnlyCatalogMM [] [] env0 listBody rfl rfl).2 rfl⟩

/-- C8: on successful resolution of the service name alone,
`get_service_info` returns the projection of that service's method table
mapping every method name to its description only — same key set, values
restricted to the description field, handlers and write flags absent by
construction. -/
theorem c8_service_info_description_projection
    (mm : ServiceMethods) (hm : ServiceHandlers) (tm : TypeMap)
    (env : ProcessEnv) (s : String) (tbl : MethodTable)
    (hsvc : mm.lookup (capitalizeFirst s) = some tbl) :
    toolsCall mm hm tm env (.str "get_service_info") (.obj [("service", .str s)])
      = (.ok (toolResult (stringifyDescMap (serviceInfoProjection tbl))), [])
    ∧ (serviceInfoProjection tbl).map Prod.fst = tbl.map Prod.fst
    ∧ ∀ m, (serviceInfoProjection tbl).lookup m
        = (tbl.lookup m).map ApiMethodInfo.description := by
  refine ⟨?_, ?_, ?_⟩
  · have hn1 : jsStrictEqStr (JsValue.str "get_service_info") "make_api_request" = false := rfl
    have hn2 : jsStrictEqStr (JsValue.str "get_service_info") "get_type_info" = false := rfl
    have hn3 : jsStrictEqStr (JsValue.str "get_service_info") "get_service_info" = true := rfl
    have e1 : jsNullish (JsValue.obj [("service", .str s)]) = false := rfl
    have e2 : jsGet (.obj [("service", .str s)]) "service" = .str s := rfl
    simp only [toolsCall, hn1, hn2, hn3, Bool.false_eq_true, if_false, if_true,
      getServiceInfo, e1, e2, hsvc]
  · clear hsvc
    induction tbl with
    | nil => rfl
    | cons p rest ih => simp only [serviceInfoProjection, List.map_cons, List.map_map] at *; rfl
  · intro m
    clear hsvc
    induction tbl with
    | nil => rfl
    | cons p rest ih =>
      simp only [serviceInfoProjection, List.map_cons, List.lookup]
      cases hmp : (m == p.1)
      · simpa [serviceInfoProjection] using ih
      · rfl

/-- C8 witness: the projection of the modelled Catalog table. -/
theorem c8_witness :
    toolsCall catalogMM catalogHM [] env0 (.str "get_service_info")
        (.obj [("service", .str "catalog")])
      = (.ok (toolResult (stringifyDescMap
          [("list", "List catalog objects"), ("create", "Create a catalog object")])), [])
    ∧ (serviceInfoProjection catalogMethods).map Prod.fst = catalogMethods.map Prod.fst
    ∧ (serviceInfoProjection catalogMethods).lookup "list"
        = (catalogMethods.lookup "list").map ApiMethodInfo.description :=
  ⟨(c8_service_info_description_projection catalogMM catalogHM [] env0 "catalog" catalogMethods rfl).1,
   (c8_service_info_description_projection catalogMM catalogHM [] env0 "catalog" catalogMethods rfl).2.1,
   (c8_service_info_description_projection catalogMM catalogHM [] env0 "catalog" catalogMethods rfl).2.2 "list"⟩

/-- C9: the credential a handler receives is read from the process
environment alone — every recorded invocation carries `getAccessToken env`,
so any two requests, whatever their params, hand the handler the same
credential. -/
theorem c9_credential_from_environment_only
    (mm : ServiceMethods) (hm : ServiceHandlers) (tm : TypeMap)
    (env : ProcessEnv) (body : JsValue) :
    (∀ inv ∈ (handleMcp mm hm tm env body).2, inv.1 = getAccessToken env)
    ∧ ∀ (body2 : JsValue) (inv inv2 : Invocation),
        inv ∈ (handleMcp mm hm tm env body).2 →
        inv2 ∈ (handleMcp mm hm tm env body2).2 → inv.1 = inv2.1 :=
  ⟨handleMcp_invocations mm hm tm env body,
   fun body2 inv inv2 h1 h2 =>
     (handleMcp_invocations mm hm tm env body inv h1).trans
       (handleMcp_invocations mm hm tm env body2 inv2 h2).symm⟩

/-- C9 witness: a successful `catalog.list` call records exactly one
invocation, and its credential is the environment token. -/
theorem c9_witness :
    ("tok123", JsValue.obj []) ∈ (handleMcp catalogMM catalogHM [] envTok catalogListBody).2
    ∧ ("tok123", JsValue.obj []).1 = getAccessToken envTok := by
  have hmem : ("tok123", JsValue.obj []) ∈ (handleMcp catalogMM catalogHM [] envTok catalogListBody).2 := by
    rw [show (handleMcp catalogMM catalogHM [] envTok catalogListBody).2
        = [("tok123", JsValue.obj [])] from rfl]
    exact List.mem_singleton.mpr rfl
  exact ⟨hmem,
    (c9_credential_from_environment_only catalogMM catalogHM [] envTok catalogListBody).1 _ hmem⟩

/-- C10 counterexample: a `tools/call` whose params is the number 5 — not
an object — is answered with HTTP 200 and a -32000 "Unknown tool"
error, not the HTTP 500 / -32603 the claim predicts for every non-object
params. -/
theorem c10_counterexample :
    (handleMcp [] [] [] env0 numParamsBody).1.status = 200
    ∧ (handleMcp [] [] [] env0 numParamsBody).1.status ≠ 500
    ∧ (handleMcp [] [] [] env0 numParamsBody).1.body
        = rpcError (-32000) "Unknown tool: undefined" (.num 3) :=
  ⟨rfl, by decide, rfl⟩

/-- C10 (amended): an absent or null params throws at the destructuring
before the tools/call error boundary and yields HTTP 500 / -32603; a
non-null non-object params destructures to undefined fields and yields a
-32000 "Unknown tool: undefined" error with HTTP 200; a missing arguments
field inside a present params object is caught at the boundary and yields
-32000 with HTTP 200. -/
theorem c10_params_destructuring_boundary
    (mm : ServiceMethods) (hm : ServiceHandlers) (tm : TypeMap) (env : ProcessEnv)
    (body : JsValue)
    (hb : jsNullish body = false)
    (hrpc : jsGet body "jsonrpc" = .str "2.0")
    (hmeth : jsGet body "method" = .str "tools/call") :
    (jsNullish (jsGet body "params") = true →
      handleMcp mm hm tm env body
        = (⟨500, rpcErrorData (-32603) "Internal error" destructureMsg (jsGet body "id")⟩, []))
    ∧ (jsNullish (jsGet body "params") = false →
       jsGet (jsGet body "params") "name" = .undefined →
      handleMcp mm hm tm env body
        = (⟨200, rpcError (-32000) "Unknown tool: undefined" (jsGet body "id")⟩, []))
    ∧ (jsGet (jsGet body "params") "name" = .str "make_api_request" →
       jsNullish (jsGet (jsGet body "params") "arguments") = true →
      handleMcp mm hm tm env body
        = (⟨200, rpcError (-32000) destructureMsg (jsGet body "id")⟩, [])) := by
  have hj : jsStrictEqStr (jsGet body "jsonrpc") "2.0" = true := by rw [hrpc]; rfl
  have hm1 : jsStrictEqStr (jsGet body "method") "initialize" = false := by rw [hmeth]; rfl
  have hm2 : jsStrictEqStr (jsGet body "method") "tools/list" = false := by rw [hmeth]; rfl
  have hm3 : jsStrictEqStr (jsGet body "method") "tools/call" = true := by rw [hmeth]; rfl
  refine ⟨?_, ?_, ?_⟩
  · intro hp
    simp only [handleMcp, hb, hj, hm1, hm2, hm3, Bool.false_eq_true, if_false, if_true,
      handleEnvelope, handleToolsCall, hp]
  · intro hp hname
    have hn1 : jsStrictEqStr (jsGet (jsGet body "params") "name") "make_api_request" = false := by
      rw [hname]; rfl
    have hn2 : jsStrictEqStr (jsGet (jsGet body "params") "name") "get_type_info" = false := by
      rw [hname]; rfl
    have hn3 : jsStrictEqStr (jsGet (jsGet body "params") "name") "get_service_info" = false := by
      rw [hname]; rfl
    have hdisp : jsDisplay (jsGet (jsGet body "params") "name") = "undefined" := by
      rw [hname]; rfl
    simp only [handleMcp, hb, hj, hm1, hm2, hm3, Bool.false_eq_true, if_false, if_true,
      handleEnvelope, handleToolsCall, hp, toolsCall, hn1, hn2, hn3, hdisp]
    rfl
  · intro hname hargs
    have hp : jsNullish (jsGet body "params") = false := by
      cases hv : jsGet body "params" <;> first | rfl | (rw [hv] at hname; simp [jsGet] at hname)
    have hn1 : jsStrictEqStr (jsGet (jsGet body "params") "name") "make_api_request" = true := by
      rw [hname]; rfl
    have hmar : makeApiRequest mm hm env (jsGet (jsGet body "params") "arguments")
        = (.error (.typeError destructureMsg), []) := by
      unfold makeApiRequest
      rw [hargs]
      rfl
    simp only [handleMcp, hb, hj, hm1, hm2, hm3, Bool.false_eq_true, if_false, if_true,
      handleEnvelope, handleToolsCall, hp, toolsCall, hn1, hmar]
    rfl

/-- C10 witness: the three params shapes — absent, numeric, object
without arguments — at concrete requests. -/
theorem c10_witness :
    handleMcp [] [] [] env0 noParamsBody
      = (⟨500, rpcErrorData (-32603) "Internal error" destructureMsg (.num 4)⟩, [])
    ∧ handleMcp [] [] [] env0 numParamsBody
      = (⟨200, rpcError (-32000) "Unknown tool: undefined" (.num 3)⟩, [])
    ∧ handleMcp [] [] [] env0 noArgsBody
      = (⟨200, rpcError (-32000) destructureMsg (.num 5)⟩, []) :=
  ⟨(c10_params_destructuring_boundary [] [] [] env0 noParamsBody rfl rfl rfl).1 rfl,
   (c10_params_destructuring_boundary [] [] [] env0 numParamsBody rfl rfl rfl).2.1 rfl rfl,
   (c10_params_destructuring_boundary [] [] [] env0 noArgsBody rfl rfl rfl).2.2 rfl rfl⟩
